import Mathlib

/-!
# Verification of the OIDC bearer-token authentication core

Shallow embedding of `store/auth.py` (`OIDCAuthentication`): the JWKS key
cache (`get_jwks`), the key resolver (`get_key_for_token`), the token
validator (`validate_token`, whose claim checks follow the semantics of
`jose.jwt.decode` with `algorithms=['RS256']`), the identity reconciler
(the `get_or_create`/update block of `authenticate`) and the `authenticate`
entry point itself.

Python's class-level mutable cache is modelled by explicit state passing
(`FetchState`); every stateful operation returns its result together with
the post-state, so mutations persist across raised exceptions, as they do
for the shared class attribute in Python.  Network I/O is modelled by an
oracle `fetch : Nat → FetchOutcome` indexed by the number of HTTP GETs
performed so far.  Exceptions are modelled by `Except PyExc`.
-/

namespace SilAuth

/-- The exception kinds that can arise inside the auth module:
DRF `AuthenticationFailed` (with its human-readable detail),
`requests.RequestException` (network/transport failure, including a
non-JSON body, which modern `requests` raises as a `RequestException`),
and the `jose` hierarchy `JWTError` / `ExpiredSignatureError` /
`JWTClaimsError` (the latter two are subclasses of `JWTError` in `jose`,
which matters for the `except` clauses). -/
inductive PyExc where
  | authFailed (reason : String)
  | requestException
  | jwtError (reason : String)
  | expiredSignature (reason : String)
  | jwtClaimsError (reason : String)
  deriving Repr, DecidableEq

abbrev PyResult (α : Type) := Except PyExc α

/-- One entry of a JWKS document.  `material` stands for the public key
material (`kty`/`n`/`e`/...); `good` records whether `jwk.construct`
succeeds on this entry. -/
structure JwkData where
  kid : Option String
  material : String
  good : Bool
  deriving Repr, DecidableEq

/-- A constructed verification key (result of `jwk.construct`). -/
structure Key where
  material : String
  deriving Repr, DecidableEq

/-- The decoded JWT payload.  Absent claims are `none`; Python's falsy
test on `payload.get(...)` treats `none` and `some ""` alike (see
`truthy`). -/
structure Payload where
  sub : Option String
  iss : Option String
  aud : Option String
  exp : Option Int
  nbf : Option Int
  iat : Option Int
  givenName : Option String
  familyName : Option String
  email : Option String
  phoneNumber : Option String
  deriving Repr, DecidableEq

/-- A parsed JWT: unverified header fields (`kid`, `alg`), the payload,
and `signedWith`, the key material of the (unique) public key whose
private counterpart produced the token's signature.  Signature
verification of the token against a key `k` succeeds exactly when
`k.material = signedWith`. -/
structure Token where
  kid : Option String
  alg : String
  signedWith : String
  claims : Payload
  deriving Repr, DecidableEq

/-- The persistent customer record (`store.models.Customer`).  `address`
is nullable in the model and is never part of the auth defaults. -/
structure Customer where
  externalId : String
  firstName : String
  lastName : String
  email : String
  phone : String
  address : Option String
  deriving Repr, DecidableEq

/-- Python truthiness of an optional string env var / claim value:
`None` and `''` are falsy. -/
def truthy : Option String → Bool
  | none => false
  | some s => s ≠ ""

/-- `payload.get(k, '')`: absent maps to the empty string. -/
def orEmpty (o : Option String) : String := o.getD ""

/-- Environment configuration (`os.getenv`): a variable may be unset
(`none`) or set, possibly to the empty string. -/
structure Env where
  issuer : Option String
  audience : Option String
  jwksUrl : Option String

/-- Outcome of one HTTP GET of the JWKS URL.  `netError` covers every
`requests.RequestException` (connection failure, timeout, HTTP error
status via `raise_for_status`, non-JSON body); `ok keys` is a parsed JSON
object whose `keys` member is the given list (missing or null `keys`
is modelled as the empty list, since `jwks.get('keys')` is falsy in all
three cases). -/
inductive FetchOutcome where
  | netError
  | ok (keys : List JwkData)

/-- The class-level `_jwks_cache` dictionary. -/
structure JwksCache where
  keys : Option (List JwkData)
  lastUpdated : Int
  deriving Repr, DecidableEq

/-- Cache state plus instrumentation: `nFetches` counts HTTP GETs
performed so far (it indexes the fetch oracle), `nForced` counts forced
TTL-bypassing invalidations (`last_updated = 0` writes). -/
structure FetchState where
  cache : JwksCache
  nFetches : Nat
  nForced : Nat
  deriving Repr, DecidableEq

/-- `CACHE_TTL = 600`. -/
def CACHE_TTL : Int := 600

/-- ASCII lowercase of one character, the semantics of `bytes.lower`. -/
def asciiLowerChar (c : Char) : Char :=
  if 'A' ≤ c ∧ c ≤ 'Z' then Char.ofNat (c.toNat + 32) else c

/-- ASCII lowercase of a string (structural, kernel-reducible). -/
def asciiLower (s : String) : String := ⟨s.data.map asciiLowerChar⟩

/-- Structural leading-segment test on character lists. -/
def charsLead : List Char → List Char → Bool
  | [], _ => true
  | _ :: _, [] => false
  | a :: as, b :: bs => a == b && charsLead as bs

/-- Structural substring occurrence test: Python's `pat in s`. -/
def charsOccur (pat : List Char) : List Char → Bool
  | [] => charsLead pat []
  | l@(_ :: rest) => charsLead pat l || charsOccur pat rest

/-- Python `pat in s` on strings. -/
def occursIn (pat s : String) : Bool := charsOccur pat.data s.data

/-- Python `s.endswith(suffix)`. -/
def strEndsWith (s suffix : String) : Bool :=
  charsLead suffix.data.reverse s.data.reverse

/-- Helper for `splitWs`: accumulate the current word (reversed). -/
def wordsAux : List Char → List Char → List String
  | [], acc => if acc.isEmpty then [] else [⟨acc.reverse⟩]
  | c :: cs, acc =>
    if c.isWhitespace then
      if acc.isEmpty then wordsAux cs [] else (⟨acc.reverse⟩ : String) :: wordsAux cs []
    else wordsAux cs (c :: acc)

/-- Python `s.split()` with no argument: split on runs of whitespace,
discarding empty parts. -/
def splitWs (s : String) : List String := wordsAux s.data []

/-- JWKS URL resolution, first half of `get_jwks`'s refresh path:
explicit `OIDC_JWKS_URL` if set, otherwise derived from `OIDC_ISSUER`
(append `/.well-known/jwks.json`, respecting a trailing slash and an
already-embedded well-known path); missing issuer raises
`AuthenticationFailed('OIDC_ISSUER not configured')`. -/
def resolveJwksUrl (env : Env) : PyResult String :=
  if truthy env.jwksUrl then .ok (orEmpty env.jwksUrl)
  else if truthy env.issuer then
    let issuer := orEmpty env.issuer
    if ¬ occursIn "/.well-known/" issuer then
      if strEndsWith issuer "/" then .ok (issuer ++ ".well-known/jwks.json")
      else .ok (issuer ++ "/.well-known/jwks.json")
    else .ok issuer
  else .error (.authFailed "OIDC_ISSUER not configured")

/-- `get_jwks`.  Refresh condition: no keys ever loaded, or
`now - last_updated > CACHE_TTL`.  On refresh: resolve the URL, perform
one GET (consuming the oracle at index `nFetches`).  An `ok` body with an
empty/missing `keys` member raises `AuthenticationFailed('Invalid JWKS
format')` (NOT caught by the `except RequestException` clause); a
non-empty body replaces the whole cache and stamps `lastUpdated := now`.
A `RequestException` degrades to the previously cached keys when they
exist, otherwise propagates.  Without refresh, returns the cached keys
unchanged. -/
def getJwks (env : Env) (fetch : Nat → FetchOutcome) (now : Int)
    (s : FetchState) : PyResult (List JwkData) × FetchState :=
  if s.cache.keys.isNone || now - s.cache.lastUpdated > CACHE_TTL then
    match resolveJwksUrl env with
    | .error e => (.error e, s)
    | .ok _url =>
      let outcome := fetch s.nFetches
      let s1 : FetchState := { s with nFetches := s.nFetches + 1 }
      match outcome with
      | .netError =>
        match s1.cache.keys with
        | some ks => (.ok ks, s1)
        | none => (.error .requestException, s1)
      | .ok keys =>
        if keys.isEmpty then (.error (.authFailed "Invalid JWKS format"), s1)
        else (.ok keys, { s1 with cache := ⟨some keys, now⟩ })
  else
    (.ok (s.cache.keys.getD []), s)

/-- First JWKS entry whose `kid` equals the wanted one (the `for` loop in
`get_key_for_token`). -/
def findKey (keys : List JwkData) (kid : String) : Option JwkData :=
  keys.find? (fun kd => kd.kid == some kid)

/-- `jwk.construct(key_data)`, wrapped as in `get_key_for_token`. -/
def constructKey (kd : JwkData) : PyResult Key :=
  if kd.good then .ok ⟨kd.material⟩
  else .error (.authFailed "Failed to construct key")

/-- `get_key_for_token`.  The argument is the result of parsing the raw
token (`none` models a string `jwt.get_unverified_header` rejects).  A
missing/empty `kid` raises inside the local `try`, is caught by its
`except Exception` clause, and resurfaces as
`'Invalid token header: ...'`.  On a cache miss for `kid`, the cache's
`last_updated` is forced to `0` (counted in `nForced`) and the lookup is
retried exactly once after a fresh `get_jwks`. -/
def getKeyForToken (env : Env) (fetch : Nat → FetchOutcome) (now : Int)
    (tok? : Option Token) (s : FetchState) : PyResult Key × FetchState :=
  match tok? with
  | none => (.error (.authFailed "Invalid token header: unparseable token"), s)
  | some tok =>
    if ¬ truthy tok.kid then
      (.error (.authFailed "Invalid token header: Token missing key ID (kid)"), s)
    else
      let kid := orEmpty tok.kid
      match getJwks env fetch now s with
      | (.error e, s1) => (.error e, s1)
      | (.ok keys, s1) =>
        match findKey keys kid with
        | some kd => (constructKey kd, s1)
        | none =>
          let s2 : FetchState :=
            { s1 with cache := { s1.cache with lastUpdated := 0 },
                      nForced := s1.nForced + 1 }
          match getJwks env fetch now s2 with
          | (.error e, s3) => (.error e, s3)
          | (.ok keys2, s3) =>
            match findKey keys2 kid with
            | some kd => (constructKey kd, s3)
            | none =>
              (.error (.authFailed ("Key ID " ++ kid ++ " not found in JWKS")), s3)

/-- Leeway of `jose`'s temporal checks: the code passes none, and the
default is `0`. -/
def leeway : Int := 0

/-- `jose.jwt.decode(token, key, algorithms=['RS256'], options, audience,
issuer)` with the option set used by `validate_token`.  Order of checks,
as in `jose`: the declared `alg` must be in the allowed list, then the
signature is verified, then claims in the order iat (type check only,
always passes here), nbf, exp, aud, iss, sub/jti (type checks only).
`jose` accepts a payload with no `aud` claim even when an expected
audience is supplied (the `'Audience claim expected'` branch is commented
out in `jose.jwt._validate_aud`), and a missing `exp` also passes. -/
def jwtDecode (tok : Token) (key : Key) (now : Int)
    (audience issuer : String) : PyResult Payload :=
  if tok.alg ≠ "RS256" then
    .error (.jwtError "The specified alg value is not allowed")
  else if tok.signedWith ≠ key.material then
    .error (.jwtError "Signature verification failed.")
  else if (match tok.claims.nbf with
           | some n => decide (n > now + leeway)
           | none => false) then
    .error (.jwtClaimsError "The token is not yet valid (nbf)")
  else if (match tok.claims.exp with
           | some e => decide (e < now - leeway)
           | none => false) then
    .error (.expiredSignature "Signature has expired.")
  else if (match tok.claims.aud with
           | some a => decide (a ≠ audience)
           | none => false) then
    .error (.jwtClaimsError "Invalid audience")
  else if tok.claims.iss ≠ some issuer then
    .error (.jwtClaimsError "Invalid issuer")
  else
    .ok tok.claims

/-- `validate_token`: config check first (`not issuer or not audience`),
then key resolution, then `jwt.decode` with its `except` clauses mapping
`ExpiredSignatureError` / `JWTClaimsError` (dispatching on whether the
lowercased message mentions `audience` or `issuer`) / `JWTError` to
`AuthenticationFailed` details. -/
def validateToken (env : Env) (fetch : Nat → FetchOutcome) (now : Int)
    (tok? : Option Token) (s : FetchState) : PyResult Payload × FetchState :=
  if ¬ truthy env.issuer ∨ ¬ truthy env.audience then
    (.error (.authFailed "OIDC configuration incomplete"), s)
  else
    let issuer := orEmpty env.issuer
    let audience := orEmpty env.audience
    match getKeyForToken env fetch now tok? s with
    | (.error e, s1) => (.error e, s1)
    | (.ok key, s1) =>
      match tok? with
      | none =>
        -- unreachable: `getKeyForToken` fails on `none`
        (.error (.authFailed "Invalid token header: unparseable token"), s1)
      | some tok =>
        match jwtDecode tok key now audience issuer with
        | .ok payload => (.ok payload, s1)
        | .error (.expiredSignature _) =>
          (.error (.authFailed "Token has expired"), s1)
        | .error (.jwtClaimsError m) =>
          if occursIn "audience" (asciiLower m) then
            (.error (.authFailed ("Token audience invalid. Expected: " ++ audience)), s1)
          else if occursIn "issuer" (asciiLower m) then
            (.error (.authFailed ("Token issuer invalid. Expected: " ++ issuer)), s1)
          else
            (.error (.authFailed ("Token claims verification failed: " ++ m)), s1)
        | .error (.jwtError m) =>
          (.error (.authFailed ("Token validation failed: " ++ m)), s1)
        | .error e => (.error e, s1)

/-- The `except` clauses at the bottom of `authenticate`: `JWTError` and
its subclasses map to `'Invalid token: ...'`, `RequestException` to
`'Error fetching JWKS'`, and any other exception — including a DRF
`AuthenticationFailed` raised inside the `try` — is re-wrapped by the
final `except Exception` as `'Authentication failed: ...'`. -/
def wrapAuthExc : PyExc → PyExc
  | .jwtError m => .authFailed ("Invalid token: " ++ m)
  | .expiredSignature m => .authFailed ("Invalid token: " ++ m)
  | .jwtClaimsError m => .authFailed ("Invalid token: " ++ m)
  | .requestException => .authFailed "Error fetching JWKS"
  | .authFailed m => .authFailed ("Authentication failed: " ++ m)

/-- One field of the update block: the new value when the claim is truthy
and differs from the stored value, else `none`. -/
def fieldStep (cur : String) (claim : Option String) : Option String :=
  if truthy claim && cur ≠ orEmpty claim then some (orEmpty claim) else none

/-- The `if not created:` block of `authenticate`: compare each of
first/last name, email, phone against the corresponding truthy claim,
mutate the changed ones and collect their names into `update_fields`. -/
def reconcileExisting (c : Customer) (p : Payload) : Customer × List String :=
  let s0 : Customer × List String := (c, [])
  let s1 := match fieldStep s0.1.firstName p.givenName with
    | some v => ({ s0.1 with firstName := v }, s0.2 ++ ["first_name"])
    | none => s0
  let s2 := match fieldStep s1.1.lastName p.familyName with
    | some v => ({ s1.1 with lastName := v }, s1.2 ++ ["last_name"])
    | none => s1
  let s3 := match fieldStep s2.1.email p.email with
    | some v => ({ s2.1 with email := v }, s2.2 ++ ["email"])
    | none => s2
  let s4 := match fieldStep s3.1.phone p.phoneNumber with
    | some v => ({ s3.1 with phone := v }, s3.2 ++ ["phone"])
    | none => s3
  s4

/-- The world an `authenticate` call runs in: environment, fetch oracle,
current time, the parse function of compact JWS strings (what the `jose`
calls would decode a given raw string to; `none` = unparseable), and the
customer table (`Customer.objects`, looked up by `external_id`). -/
structure World where
  env : Env
  fetch : Nat → FetchOutcome
  now : Int
  parse : String → Option Token
  store : List Customer

/-- The write `authenticate` performs on the customer store:
nothing, a `get_or_create` insert, or a `save(update_fields=...)`. -/
inductive StoreEffect where
  | noWrite
  | created (c : Customer)
  | updated (c : Customer) (fields : List String)
  deriving Repr, DecidableEq

/-- `Customer.objects.get_or_create(external_id=sub)`'s lookup step. -/
def findCustomer (store : List Customer) (su : String) : Option Customer :=
  store.find? (fun c => c.externalId == su)

/-- `authenticate(request)`.  The argument `authHeader` is the raw value
of the `Authorization` header (`''` when absent, as DRF's
`get_authorization_header` returns `b''`).  Returns the Python result
(`None`, a `(customer, token)` pair, or an exception), the final cache
state, and the store write performed. -/
def authenticate (w : World) (authHeader : String) (s : FetchState) :
    PyResult (Option (Customer × String)) × FetchState × StoreEffect :=
  let parts := splitWs authHeader
  match parts with
  | [] => (.ok none, s, .noWrite)
  | scheme :: rest =>
    if asciiLower scheme ≠ "bearer" then (.ok none, s, .noWrite)
    else if (scheme :: rest).length ≠ 2 then
      (.error (.authFailed "Invalid token header. No credentials provided."), s, .noWrite)
    else
      let raw := rest.headD ""
      let tok? := w.parse raw
      match validateToken w.env w.fetch w.now tok? s with
      | (.error e, s1) => (.error (wrapAuthExc e), s1, .noWrite)
      | (.ok payload, s1) =>
        if ¬ truthy payload.sub then
          (.error (wrapAuthExc (.authFailed "Token missing sub claim")), s1, .noWrite)
        else
          let su := orEmpty payload.sub
          match findCustomer w.store su with
          | none =>
            let c : Customer :=
              { externalId := su
                firstName := orEmpty payload.givenName
                lastName := orEmpty payload.familyName
                email := orEmpty payload.email
                phone := orEmpty payload.phoneNumber
                address := none }
            (.ok (some (c, raw)), s1, .created c)
          | some c0 =>
            let (c1, fields) := reconcileExisting c0 payload
            if fields.isEmpty then (.ok (some (c1, raw)), s1, .noWrite)
            else (.ok (some (c1, raw)), s1, .updated c1 fields)

/-- Spec-side description of the reconciliation frame, written from the
spec's words for comparison with `reconcileExisting` (the code side):
"the subset of {first name, last name, email, phone} whose incoming claim
value is non-empty and differs from the stored value". -/
def changedFieldsSpec (c : Customer) (p : Payload) : List String :=
  (if truthy p.givenName ∧ c.firstName ≠ orEmpty p.givenName then ["first_name"] else []) ++
  (if truthy p.familyName ∧ c.lastName ≠ orEmpty p.familyName then ["last_name"] else []) ++
  (if truthy p.email ∧ c.email ≠ orEmpty p.email then ["email"] else []) ++
  (if truthy p.phoneNumber ∧ c.phone ≠ orEmpty p.phoneNumber then ["phone"] else [])

/-! ### Concrete sample data for witnesses and counterexamples -/

/-- A JWKS entry with key id `k1` and public key material `P`. -/
def kd1 : JwkData := ⟨some "k1", "P", true⟩

/-- A payload matching the spec's concrete success scenario. -/
def pay1 : Payload :=
  ⟨some "u1", some "https://idp.example/", some "app1", some 5000, none, none,
    some "Grace", some "Hopper", some "g@example.com", some "555"⟩

/-- A valid token: `kid=k1`, RS256, signed by `P`'s counterpart. -/
def tok1 : Token := ⟨some "k1", "RS256", "P", pay1⟩

/-- Same token but with a non-matching audience claim. -/
def tok2 : Token := ⟨some "k1", "RS256", "P", { pay1 with aud := some "other-app" }⟩

/-- Same token but expired (`exp` in the past). -/
def tok3 : Token := ⟨some "k1", "RS256", "P", { pay1 with exp := some 10 }⟩

/-- Same token but with a key id absent from the JWKS. -/
def tok4 : Token := ⟨some "k2", "RS256", "P", pay1⟩

/-- Same token but declaring the HS256 algorithm. -/
def tok5 : Token := ⟨some "k1", "HS256", "P", pay1⟩

/-- A fully configured environment. -/
def env1 : Env :=
  ⟨some "https://idp.example/", some "app1", some "https://idp.example/jwks.json"⟩

/-- A fresh cache holding `kd1`, refreshed at time 900 (calls at 1000 are
within the 600-second TTL). -/
def st1 : FetchState := ⟨⟨some [kd1], 900⟩, 0, 0⟩

/-- An existing customer whose profile already matches `pay1`'s claims. -/
def cust1 : Customer := ⟨"u1", "Grace", "Hopper", "g@example.com", "555", some "12 Main St"⟩

/-! ## Basic lemmas about the embedded operations -/

/-- `get_jwks` never touches the forced-refresh counter. -/
theorem getJwks_nForced (env : Env) (fetch : Nat → FetchOutcome) (now : Int)
    (s : FetchState) : ((getJwks env fetch now s).2).nForced = s.nForced := by
  unfold getJwks
  split
  · split
    · rfl
    · dsimp only
      split
      · split <;> rfl
      · split <;> rfl
  · rfl

/-- `get_jwks` performs at most one HTTP GET. -/
theorem getJwks_nFetches_le (env : Env) (fetch : Nat → FetchOutcome) (now : Int)
    (s : FetchState) :
    ((getJwks env fetch now s).2).nFetches ≤ s.nFetches + 1 := by
  unfold getJwks
  split
  · split
    · exact Nat.le_succ s.nFetches
    · dsimp only
      split
      · split <;> exact Nat.le_refl _
      · split <;> exact Nat.le_refl _
  · exact Nat.le_succ s.nFetches

/-- A fresh, populated cache is served without any fetch. -/
theorem getJwks_fresh (env : Env) (fetch : Nat → FetchOutcome) (now : Int)
    (s : FetchState) (ks : List JwkData) (hks : s.cache.keys = some ks)
    (hfresh : now - s.cache.lastUpdated ≤ CACHE_TTL) :
    getJwks env fetch now s = (.ok ks, s) := by
  have hnot : ¬ (now - s.cache.lastUpdated > CACHE_TTL) := not_lt.mpr hfresh
  unfold getJwks
  rw [hks]
  simp [hnot]

/-- With an explicit `OIDC_JWKS_URL`, URL resolution succeeds. -/
theorem resolveJwksUrl_explicit (env : Env) (hurl : truthy env.jwksUrl = true) :
    resolveJwksUrl env = .ok (orEmpty env.jwksUrl) := by
  unfold resolveJwksUrl
  rw [hurl]
  rfl

/-- A due refresh that fetches a well-formed non-empty key set replaces
the cache and stamps it with `now`. -/
theorem getJwks_refresh_ok (env : Env) (fetch : Nat → FetchOutcome) (now : Int)
    (s : FetchState) (ks : List JwkData)
    (hcond : s.cache.keys = none ∨ now - s.cache.lastUpdated > CACHE_TTL)
    (hurl : truthy env.jwksUrl = true)
    (hf : fetch s.nFetches = .ok ks) (hne : ks ≠ []) :
    getJwks env fetch now s =
      (.ok ks, ⟨⟨some ks, now⟩, s.nFetches + 1, s.nForced⟩) := by
  have hc : (s.cache.keys.isNone || decide (now - s.cache.lastUpdated > CACHE_TTL)) = true := by
    rcases hcond with h | h
    · simp [h]
    · simp [h]
  unfold getJwks
  rw [hc, resolveJwksUrl_explicit env hurl]
  simp only [hf]
  simp [List.isEmpty_iff, hne]

/-- A due refresh that hits a network error while a previous key set
exists degrades to the previous set, leaving the cache untouched. -/
theorem getJwks_refresh_netError_degrade (env : Env) (fetch : Nat → FetchOutcome)
    (now : Int) (s : FetchState) (ks : List JwkData)
    (hks : s.cache.keys = some ks)
    (hstale : now - s.cache.lastUpdated > CACHE_TTL)
    (hurl : truthy env.jwksUrl = true)
    (hf : fetch s.nFetches = .netError) :
    getJwks env fetch now s = (.ok ks, { s with nFetches := s.nFetches + 1 }) := by
  unfold getJwks
  rw [resolveJwksUrl_explicit env hurl]
  simp only [hf, hks]
  simp [hstale]

/-- A due refresh that hits a network error with no previous key set
propagates the `RequestException`. -/
theorem getJwks_refresh_netError_noCache (env : Env) (fetch : Nat → FetchOutcome)
    (now : Int) (s : FetchState)
    (hks : s.cache.keys = none)
    (hurl : truthy env.jwksUrl = true)
    (hf : fetch s.nFetches = .netError) :
    getJwks env fetch now s =
      (.error .requestException, { s with nFetches := s.nFetches + 1 }) := by
  unfold getJwks
  rw [resolveJwksUrl_explicit env hurl]
  simp only [hf, hks]
  simp

/-- The `except` mapping at the `authenticate` boundary always produces a
DRF `AuthenticationFailed`. -/
theorem wrapAuthExc_shape (e : PyExc) : ∃ m, wrapAuthExc e = .authFailed m := by
  cases e <;> exact ⟨_, rfl⟩

/-- Inversion of a successful `jose.jwt.decode`: every check passed. -/
theorem jwtDecode_ok_inv {tok : Token} {key : Key} {now : Int}
    {audience issuer : String} {p : Payload}
    (h : jwtDecode tok key now audience issuer = .ok p) :
    tok.alg = "RS256" ∧ tok.signedWith = key.material ∧
    (∀ n, tok.claims.nbf = some n → n ≤ now + leeway) ∧
    (∀ e, tok.claims.exp = some e → now - leeway ≤ e) ∧
    (∀ a, tok.claims.aud = some a → a = audience) ∧
    tok.claims.iss = some issuer ∧ p = tok.claims := by
  unfold jwtDecode at h
  split at h
  · exact Except.noConfusion h
  next halg =>
    split at h
    · exact Except.noConfusion h
    next hsig =>
      split at h
      · exact Except.noConfusion h
      next hnbf =>
        split at h
        · exact Except.noConfusion h
        next hexp =>
          split at h
          · exact Except.noConfusion h
          next haud =>
            split at h
            · exact Except.noConfusion h
            next hiss =>
              refine ⟨not_not.mp halg, not_not.mp hsig, ?_, ?_, ?_, not_not.mp hiss,
                (Except.ok.inj h).symm⟩
              · intro n hn
                rw [hn] at hnbf
                simpa using hnbf
              · intro e he
                rw [he] at hexp
                simp at hexp
                omega
              · intro a ha
                rw [ha] at haud
                simpa using haud

/-- Key resolution hit on a fresh cache: no fetch, no forced refresh. -/
theorem getKeyForToken_cached (env : Env) (fetch : Nat → FetchOutcome) (now : Int)
    (tok : Token) (s : FetchState) (ks : List JwkData) (kid : String) (kd : JwkData)
    (hkid : tok.kid = some kid) (hkidne : kid ≠ "")
    (hks : s.cache.keys = some ks)
    (hfresh : now - s.cache.lastUpdated ≤ CACHE_TTL)
    (hfind : findKey ks kid = some kd) (hgood : kd.good = true) :
    getKeyForToken env fetch now (some tok) s = (.ok ⟨kd.material⟩, s) := by
  simp [getKeyForToken, hkid, truthy, hkidne, orEmpty,
    getJwks_fresh env fetch now s ks hks hfresh, hfind, constructKey, hgood]

/-- Inversion of a successful `validate_token`: configuration was
present, a key was resolved from the given state, and `jwt.decode`
succeeded on it. -/
theorem validateToken_ok_inv {env : Env} {fetch : Nat → FetchOutcome} {now : Int}
    {tok? : Option Token} {s : FetchState} {p : Payload}
    (h : (validateToken env fetch now tok? s).1 = .ok p) :
    truthy env.issuer = true ∧ truthy env.audience = true ∧
    ∃ tok key, tok? = some tok ∧
      (getKeyForToken env fetch now tok? s).1 = .ok key ∧
      jwtDecode tok key now (orEmpty env.audience) (orEmpty env.issuer) = .ok p := by
  unfold validateToken at h
  split at h
  · simp at h
  next hcfg =>
    push_neg at hcfg
    obtain ⟨hiss, haud⟩ := hcfg
    refine ⟨by simpa using hiss, by simpa using haud, ?_⟩
    dsimp only at h
    split at h
    next e s1 heq => simp at h
    next key s1 heq =>
      cases tok? with
      | none => simp at h
      | some tok =>
        refine ⟨tok, key, rfl, by rw [heq], ?_⟩
        dsimp only at h
        cases hd : jwtDecode tok key now (orEmpty env.audience) (orEmpty env.issuer) with
        | ok payload =>
          rw [hd] at h
          dsimp only at h
          exact h
        | error e' =>
          rw [hd] at h
          cases e' with
          | authFailed m => simp at h
          | requestException => simp at h
          | jwtError m => simp at h
          | expiredSignature m => simp at h
          | jwtClaimsError m =>
            dsimp only at h
            split at h
            · simp at h
            · split at h <;> simp at h

/-- After a well-formed two-part `Bearer` header, `authenticate` either
raises an `AuthenticationFailed` or succeeds with a customer produced
from a successfully validated payload; it never returns `None`. -/
theorem authenticate_cases {w : World} {authHeader : String} {s : FetchState}
    {sch raw : String}
    (hparts : splitWs authHeader = [sch, raw])
    (hsch : asciiLower sch = "bearer") :
    (∃ m, (authenticate w authHeader s).1 = .error (.authFailed m)) ∨
    ∃ payload c,
      (validateToken w.env w.fetch w.now (w.parse raw) s).1 = .ok payload ∧
      truthy payload.sub = true ∧
      (authenticate w authHeader s).1 = .ok (some (c, raw)) := by
  unfold authenticate
  rw [hparts]
  simp only [hsch, ne_eq, not_true_eq_false, reduceIte, List.length_cons,
    List.length_nil, List.headD_cons, Nat.zero_add, Nat.reduceAdd, OfNat.ofNat_ne_one,
    List.headD]
  rcases hval : validateToken w.env w.fetch w.now (w.parse raw) s with ⟨res, s1⟩
  cases res with
  | error e =>
    obtain ⟨m, hm⟩ := wrapAuthExc_shape e
    exact Or.inl ⟨m, by simp [hm]⟩
  | ok payload =>
    by_cases hsub : truthy payload.sub = true
    · rcases hfc : findCustomer w.store (orEmpty payload.sub) with _ | c0
      · refine Or.inr ⟨payload,
          ⟨orEmpty payload.sub, orEmpty payload.givenName, orEmpty payload.familyName,
            orEmpty payload.email, orEmpty payload.phoneNumber, none⟩, rfl, hsub, ?_⟩
        simp [hsub, hfc]
      · refine Or.inr ⟨payload, (reconcileExisting c0 payload).1, rfl, hsub, ?_⟩
        by_cases hemp : (reconcileExisting c0 payload).2.isEmpty = true <;>
          simp [hsub, hfc, hemp]
    · refine Or.inl ⟨"Authentication failed: Token missing sub claim", ?_⟩
      simp [hsub, wrapAuthExc]

/-- A successful `jose.jwt.decode` from the individual checks. -/
theorem jwtDecode_ok_of {tok : Token} {key : Key} {now : Int} {audience issuer : String}
    (halg : tok.alg = "RS256") (hsig : tok.signedWith = key.material)
    (hnbf : ∀ n, tok.claims.nbf = some n → n ≤ now + leeway)
    (hexp : ∀ e, tok.claims.exp = some e → now - leeway ≤ e)
    (haud : ∀ a, tok.claims.aud = some a → a = audience)
    (hiss : tok.claims.iss = some issuer) :
    jwtDecode tok key now audience issuer = .ok tok.claims := by
  have hb1 : (match tok.claims.nbf with
      | some n => decide (n > now + leeway) | none => false) = false := by
    cases h : tok.claims.nbf with
    | none => rfl
    | some n => simpa using not_lt.mpr (hnbf n h)
  have hb2 : (match tok.claims.exp with
      | some e => decide (e < now - leeway) | none => false) = false := by
    cases h : tok.claims.exp with
    | none => rfl
    | some e => simpa using not_lt.mpr (hexp e h)
  have hb3 : (match tok.claims.aud with
      | some a => !decide (a = audience) | none => false) = false := by
    cases h : tok.claims.aud with
    | none => rfl
    | some a => simp [haud a h]
  simp [jwtDecode, halg, hsig, hiss, hb1, hb2, hb3]

/-- An expired token fails `jose.jwt.decode` in the expiry branch when
the earlier checks pass. -/
theorem jwtDecode_expired {tok : Token} {key : Key} {now : Int} {audience issuer : String}
    {e : Int}
    (halg : tok.alg = "RS256") (hsig : tok.signedWith = key.material)
    (hnbf : ∀ n, tok.claims.nbf = some n → n ≤ now + leeway)
    (hexp : tok.claims.exp = some e) (hlt : e < now - leeway) :
    jwtDecode tok key now audience issuer =
      .error (.expiredSignature "Signature has expired.") := by
  have hb1 : (match tok.claims.nbf with
      | some n => decide (n > now + leeway) | none => false) = false := by
    cases h : tok.claims.nbf with
    | none => rfl
    | some n => simpa using not_lt.mpr (hnbf n h)
  simp [jwtDecode, halg, hsig, hb1, hexp, hlt]

/-- `validate_token` with present configuration, a resolved key and a
successful decode returns the payload. -/
theorem validateToken_decode_ok {env : Env} {fetch : Nat → FetchOutcome} {now : Int}
    {tok : Token} {s s1 : FetchState} {key : Key}
    (hissT : truthy env.issuer = true) (haudT : truthy env.audience = true)
    (hkey : getKeyForToken env fetch now (some tok) s = (.ok key, s1))
    (hd : jwtDecode tok key now (orEmpty env.audience) (orEmpty env.issuer) =
      .ok tok.claims) :
    validateToken env fetch now (some tok) s = (.ok tok.claims, s1) := by
  unfold validateToken
  rw [if_neg (by simp [hissT, haudT])]
  dsimp only
  rw [hkey]
  dsimp only
  rw [hd]

/-- `validate_token` with present configuration, a resolved key and an
expired decode maps the error to `'Token has expired'`. -/
theorem validateToken_decode_expired {env : Env} {fetch : Nat → FetchOutcome} {now : Int}
    {tok : Token} {s s1 : FetchState} {key : Key} {m : String}
    (hissT : truthy env.issuer = true) (haudT : truthy env.audience = true)
    (hkey : getKeyForToken env fetch now (some tok) s = (.ok key, s1))
    (hd : jwtDecode tok key now (orEmpty env.audience) (orEmpty env.issuer) =
      .error (.expiredSignature m)) :
    validateToken env fetch now (some tok) s =
      (.error (.authFailed "Token has expired"), s1) := by
  unfold validateToken
  rw [if_neg (by simp [hissT, haudT])]
  dsimp only
  rw [hkey]
  dsimp only
  rw [hd]

/-- Unfolding `authenticate` on a two-part bearer header when validation
raises: the exception is mapped through the `except` clauses. -/
theorem authenticate_of_validate_error {w : World} {authHeader : String} {s s1 : FetchState}
    {sch raw : String} {ex : PyExc}
    (hparts : splitWs authHeader = [sch, raw])
    (hsch : asciiLower sch = "bearer")
    (hval : validateToken w.env w.fetch w.now (w.parse raw) s = (.error ex, s1)) :
    authenticate w authHeader s = (.error (wrapAuthExc ex), s1, .noWrite) := by
  unfold authenticate
  rw [hparts]
  simp only [hsch, ne_eq, not_true_eq_false, reduceIte, List.length_cons,
    List.length_nil, List.headD_cons]
  rw [hval]

/-- Unfolding `authenticate` on a two-part bearer header when validation
succeeds with a truthy subject and no matching customer exists:
`get_or_create` creates the record from the claims. -/
theorem authenticate_of_validate_ok_created {w : World} {authHeader : String}
    {s s1 : FetchState} {sch raw : String} {payload : Payload}
    (hparts : splitWs authHeader = [sch, raw])
    (hsch : asciiLower sch = "bearer")
    (hval : validateToken w.env w.fetch w.now (w.parse raw) s = (.ok payload, s1))
    (hsub : truthy payload.sub = true)
    (hfc : findCustomer w.store (orEmpty payload.sub) = none) :
    authenticate w authHeader s =
      (.ok (some (⟨orEmpty payload.sub, orEmpty payload.givenName,
          orEmpty payload.familyName, orEmpty payload.email,
          orEmpty payload.phoneNumber, none⟩, raw)), s1,
        .created ⟨orEmpty payload.sub, orEmpty payload.givenName,
          orEmpty payload.familyName, orEmpty payload.email,
          orEmpty payload.phoneNumber, none⟩) := by
  unfold authenticate
  rw [hparts]
  simp only [hsch, ne_eq, not_true_eq_false, reduceIte, List.length_cons,
    List.length_nil, List.headD_cons]
  rw [hval]
  simp [hsub, hfc]

/-- Unfolding `authenticate` on a two-part bearer header when validation
succeeds with a truthy subject and a matching customer exists: the
reconciler decides the returned record and the store write. -/
theorem authenticate_of_validate_ok_existing {w : World} {authHeader : String}
    {s s1 : FetchState} {sch raw : String} {payload : Payload} {c0 : Customer}
    (hparts : splitWs authHeader = [sch, raw])
    (hsch : asciiLower sch = "bearer")
    (hval : validateToken w.env w.fetch w.now (w.parse raw) s = (.ok payload, s1))
    (hsub : truthy payload.sub = true)
    (hfc : findCustomer w.store (orEmpty payload.sub) = some c0) :
    authenticate w authHeader s =
      (.ok (some ((reconcileExisting c0 payload).1, raw)), s1,
        if ((reconcileExisting c0 payload).2).isEmpty then .noWrite
        else .updated (reconcileExisting c0 payload).1 (reconcileExisting c0 payload).2) := by
  unfold authenticate
  rw [hparts]
  simp only [hsch, ne_eq, not_true_eq_false, reduceIte, List.length_cons,
    List.length_nil, List.headD_cons]
  rw [hval]
  by_cases hemp : ((reconcileExisting c0 payload).2).isEmpty = true <;>
    simp [hsub, hfc, hemp]

/-- `get_or_create`'s lookup only returns a customer with the wanted
external id. -/
theorem findCustomer_externalId {store : List Customer} {su : String} {c : Customer}
    (h : findCustomer store su = some c) : c.externalId = su := by
  unfold findCustomer at h
  have := List.find?_some h
  simpa using this

/-- Reconciliation never changes the external id. -/
theorem reconcileExisting_externalId (c : Customer) (p : Payload) :
    ((reconcileExisting c p).1).externalId = c.externalId := by
  unfold reconcileExisting
  dsimp only
  split <;> split <;> split <;> split <;> rfl

/-- Reconciliation never writes the address field. -/
theorem reconcileExisting_address (c : Customer) (p : Payload) :
    ((reconcileExisting c p).1).address = c.address := by
  unfold reconcileExisting
  dsimp only
  split <;> split <;> split <;> split <;> rfl

/-- If a refresh is due and a URL is configured, `get_jwks` performs
exactly one HTTP GET, whatever the outcome. -/
theorem getJwks_fetches_when_due (env : Env) (fetch : Nat → FetchOutcome) (now : Int)
    (s : FetchState) (hurl : truthy env.jwksUrl = true)
    (hdue : s.cache.keys = none ∨ now - s.cache.lastUpdated > CACHE_TTL) :
    ((getJwks env fetch now s).2).nFetches = s.nFetches + 1 := by
  have hc : (s.cache.keys.isNone || decide (now - s.cache.lastUpdated > CACHE_TTL)) = true := by
    rcases hdue with h | h <;> simp [h]
  unfold getJwks
  rw [hc, resolveJwksUrl_explicit env hurl]
  dsimp only
  repeat' split
  all_goals first
    | rfl
    | (exact absurd rfl (by assumption))

/-- `get_key_for_token` performs at most one forced cache invalidation
per resolution. -/
theorem getKeyForToken_nForced_le (env : Env) (fetch : Nat → FetchOutcome) (now : Int)
    (tok? : Option Token) (s : FetchState) :
    ((getKeyForToken env fetch now tok? s).2).nForced ≤ s.nForced + 1 := by
  unfold getKeyForToken
  cases tok? with
  | none => exact Nat.le_succ _
  | some tok =>
    dsimp only
    split
    · exact Nat.le_succ _
    · split
      next e s1 heq =>
        have h2 := congrArg (fun x => (x.2).nForced) heq
        try dsimp only at h2
        rw [getJwks_nForced] at h2
        try dsimp only
        omega
      next keys s1 heq =>
        have h1 := congrArg (fun x => (x.2).nForced) heq
        try dsimp only at h1
        rw [getJwks_nForced] at h1
        split
        · try dsimp only
          omega
        · try dsimp only
          split
          next e2 s3 heq2 =>
            have h2 := congrArg (fun x => (x.2).nForced) heq2
            try dsimp only at h2
            rw [getJwks_nForced] at h2
            try dsimp only at h2
            try dsimp only
            omega
          next keys2 s3 heq2 =>
            have h2 := congrArg (fun x => (x.2).nForced) heq2
            try dsimp only at h2
            rw [getJwks_nForced] at h2
            try dsimp only at h2
            split <;> try dsimp only
            all_goals omega

/-! ## Claim theorems -/

/-- **C5**: header state machine of `authenticate`: an absent header (or
one that splits into no parts) yields `None` with no state or store
change; a present header whose scheme is not `Bearer` case-insensitively
also yields `None`; a `Bearer` header that does not split into exactly
two parts raises `AuthenticationFailed`; only a well-formed two-part
`Bearer` header proceeds to token validation, and then never yields
`None`. -/
theorem claim_C5 (w : World) (s : FetchState) (authHeader : String) :
    (splitWs authHeader = [] →
      authenticate w authHeader s = (.ok none, s, .noWrite)) ∧
    (∀ sch rest, splitWs authHeader = sch :: rest → asciiLower sch ≠ "bearer" →
      authenticate w authHeader s = (.ok none, s, .noWrite)) ∧
    (∀ sch rest, splitWs authHeader = sch :: rest → asciiLower sch = "bearer" →
      (sch :: rest).length ≠ 2 →
      authenticate w authHeader s =
        (.error (.authFailed "Invalid token header. No credentials provided."), s, .noWrite)) ∧
    (∀ sch raw, splitWs authHeader = [sch, raw] → asciiLower sch = "bearer" →
      (authenticate w authHeader s).1 ≠ .ok none) := by
  refine ⟨?_, ?_, ?_, ?_⟩
  · intro h
    unfold authenticate
    rw [h]
  · intro sch rest h hne
    unfold authenticate
    rw [h]
    dsimp only
    rw [if_pos hne]
  · intro sch rest h heq hlen
    unfold authenticate
    rw [h]
    dsimp only
    rw [if_neg (by simp [heq]), if_pos hlen]
  · intro sch raw h heq
    rcases authenticate_cases h heq with ⟨m, hm⟩ | ⟨payload, c, _, _, hm⟩ <;>
      rw [hm] <;> simp

/-- Witness for C5 at concrete inputs: a `Basic` header is ignored. -/
theorem claim_C5_witness :
    splitWs "Basic abc" = ["Basic", "abc"] ∧
    authenticate ⟨env1, fun _ => .netError, 1000, fun _ => none, []⟩ "Basic abc" st1 =
      (.ok none, st1, .noWrite) :=
  ⟨by decide,
    (claim_C5 ⟨env1, fun _ => .netError, 1000, fun _ => none, []⟩ st1 "Basic abc").2.1
      "Basic" ["abc"] (by decide) (by decide)⟩

/-- **C8** (amended): a missing issuer or audience makes `validate_token`
fail the request with `AuthenticationFailed('OIDC configuration
incomplete')` before any key resolution or network fetch (the state is
returned unchanged); there is no distinct fatal configuration-error
channel. -/
theorem claim_C8_amended (env : Env) (fetch : Nat → FetchOutcome) (now : Int)
    (tok? : Option Token) (s : FetchState)
    (h : truthy env.issuer = false ∨ truthy env.audience = false) :
    validateToken env fetch now tok? s =
      (.error (.authFailed "OIDC configuration incomplete"), s) := by
  unfold validateToken
  rcases h with h | h <;> rw [if_pos (by simp [h])]

/-- **C8** counterexample: with `OIDC_ISSUER` unset (and everything else
in place), `authenticate` produces a per-request `AuthenticationFailed`
for the request, refuting the claim that no per-request
`AuthenticationFailed` result is produced for missing configuration. -/
theorem claim_C8_counterexample :
    (authenticate ⟨⟨none, some "app1", some "https://idp.example/jwks.json"⟩,
        fun _ => .netError, 1000, fun _ => some tok1, []⟩ "Bearer x" st1).1 =
      .error (.authFailed "Authentication failed: OIDC configuration incomplete") := by
  rfl

/-- Witness for the amended C8. -/
theorem claim_C8_witness :
    truthy (Env.issuer ⟨none, some "app1", none⟩) = false ∧
    validateToken ⟨none, some "app1", none⟩ (fun _ => .netError) 1000 (some tok1) st1 =
      (.error (.authFailed "OIDC configuration incomplete"), st1) :=
  ⟨rfl, claim_C8_amended ⟨none, some "app1", none⟩ (fun _ => .netError) 1000
    (some tok1) st1 (Or.inl rfl)⟩

/-- **C10**: only RS256 is accepted: a token declaring any other
algorithm is never validated successfully, whatever key material it was
signed with, and at the `authenticate` boundary it is rejected with an
`AuthenticationFailed`. -/
theorem claim_C10 (tok : Token) (halg : tok.alg ≠ "RS256") :
    (∀ env fetch now s p, (validateToken env fetch now (some tok) s).1 ≠ .ok p) ∧
    (∀ (w : World) (authHeader : String) (s : FetchState) (sch raw : String),
      splitWs authHeader = [sch, raw] → asciiLower sch = "bearer" →
      w.parse raw = some tok →
      ∃ m, (authenticate w authHeader s).1 = .error (.authFailed m)) := by
  have hv : ∀ env fetch now s p, (validateToken env fetch now (some tok) s).1 ≠ .ok p := by
    intro env fetch now s p hok
    obtain ⟨_, _, tok', key, htok, _, hd⟩ := validateToken_ok_inv hok
    cases Option.some.inj htok
    obtain ⟨halg', _⟩ := jwtDecode_ok_inv hd
    exact halg halg'
  refine ⟨hv, ?_⟩
  intro w authHeader s sch raw hparts hsch hparse
  rcases authenticate_cases hparts hsch with h | ⟨payload, c, hok, _, _⟩
  · exact h
  · rw [hparse] at hok
    exact absurd hok (hv _ _ _ _ _)

/-- Witness for C10: an HS256 token signed with the cached key's own
material is still rejected. -/
theorem claim_C10_witness :
    tok5.alg ≠ "RS256" ∧
    ∃ m, (authenticate ⟨env1, fun _ => .netError, 1000,
        fun r => if r = "t5" then some tok5 else none, []⟩ "Bearer t5" st1).1 =
      .error (.authFailed m) :=
  ⟨by decide,
    (claim_C10 tok5 (by decide)).2 ⟨env1, fun _ => .netError, 1000,
        fun r => if r = "t5" then some tok5 else none, []⟩
      "Bearer t5" st1 "Bearer" "t5" (by decide) (by decide) rfl⟩

/-- **C2**: a presented token whose `aud` claim does not match the
configured audience, or whose signature does not verify under whatever
key was resolved for it, makes `authenticate` raise
`AuthenticationFailed`; it never returns a success pair. -/
theorem claim_C2 (w : World) (authHeader : String) (s : FetchState)
    (sch raw : String) (tok : Token)
    (hparts : splitWs authHeader = [sch, raw]) (hsch : asciiLower sch = "bearer")
    (hparse : w.parse raw = some tok)
    (hbad : (∃ a, tok.claims.aud = some a ∧ a ≠ orEmpty w.env.audience) ∨
      (∀ key, (getKeyForToken w.env w.fetch w.now (some tok) s).1 = .ok key →
        tok.signedWith ≠ key.material)) :
    ∃ m, (authenticate w authHeader s).1 = .error (.authFailed m) := by
  rcases authenticate_cases hparts hsch with h | ⟨payload, c, hok, _, _⟩
  · exact h
  · exfalso
    rw [hparse] at hok
    obtain ⟨_, _, tok', key, htok, hkey, hd⟩ := validateToken_ok_inv hok
    cases Option.some.inj htok
    obtain ⟨_, hsig, _, _, haud, _, _⟩ := jwtDecode_ok_inv hd
    rcases hbad with ⟨a, ha, hane⟩ | hsigbad
    · exact hane (haud a ha)
    · exact hsigbad key hkey hsig

/-- Witness for C2: a token with audience `other-app` against configured
audience `app1` is rejected. -/
theorem claim_C2_witness :
    tok2.claims.aud = some "other-app" ∧
    ∃ m, (authenticate ⟨env1, fun _ => .netError, 1000,
        fun r => if r = "t2" then some tok2 else none, []⟩ "Bearer t2" st1).1 =
      .error (.authFailed m) :=
  ⟨rfl, claim_C2 ⟨env1, fun _ => .netError, 1000,
      fun r => if r = "t2" then some tok2 else none, []⟩
    "Bearer t2" st1 "Bearer" "t2" tok2 (by decide) (by decide) rfl
    (Or.inl ⟨"other-app", rfl, by decide⟩)⟩

/-- **C3**: a token whose `exp` lies in the past (leeway is 0) is never
accepted; and on the reachable expiry branch — configuration present,
key resolved from the fresh cache, RS256, valid signature, `nbf` not in
the future — `authenticate` raises `AuthenticationFailed` with the
expired-token reason. -/
theorem claim_C3 (tok : Token) (e : Int) (hexp : tok.claims.exp = some e) :
    (∀ (w : World) (authHeader : String) (s : FetchState) (sch raw : String),
      e < w.now → splitWs authHeader = [sch, raw] → asciiLower sch = "bearer" →
      w.parse raw = some tok →
      ∀ pr, (authenticate w authHeader s).1 ≠ .ok (some pr)) ∧
    (∀ (w : World) (authHeader : String) (s : FetchState)
      (sch raw issuer audience kid : String) (ks : List JwkData) (kd : JwkData),
      e < w.now → splitWs authHeader = [sch, raw] → asciiLower sch = "bearer" →
      w.parse raw = some tok →
      w.env.issuer = some issuer → issuer ≠ "" →
      w.env.audience = some audience → audience ≠ "" →
      s.cache.keys = some ks → w.now - s.cache.lastUpdated ≤ CACHE_TTL →
      tok.kid = some kid → kid ≠ "" → findKey ks kid = some kd → kd.good = true →
      tok.alg = "RS256" → tok.signedWith = kd.material →
      (∀ n, tok.claims.nbf = some n → n ≤ w.now) →
      authenticate w authHeader s =
        (.error (.authFailed "Authentication failed: Token has expired"), s, .noWrite)) := by
  constructor
  · intro w authHeader s sch raw hlt hparts hsch hparse pr hok'
    rcases authenticate_cases hparts hsch with ⟨m, hm⟩ | ⟨payload, c, hok, _, _⟩
    · rw [hm] at hok'
      exact Except.noConfusion hok'
    · rw [hparse] at hok
      obtain ⟨_, _, tok', key, htok, _, hd⟩ := validateToken_ok_inv hok
      cases Option.some.inj htok
      obtain ⟨_, _, _, hexp', _, _, _⟩ := jwtDecode_ok_inv hd
      have h2 := hexp' e hexp
      simp [leeway] at h2
      omega
  · intro w authHeader s sch raw issuer audience kid ks kd hlt hparts hsch hparse
      hiss hissne haud haudne hks hfresh hkid hkidne hfind hgood halg hsig hnbf
    have hissT : truthy w.env.issuer = true := by rw [hiss]; simp [truthy, hissne]
    have haudT : truthy w.env.audience = true := by rw [haud]; simp [truthy, haudne]
    have hkey := getKeyForToken_cached w.env w.fetch w.now tok s ks kid kd
      hkid hkidne hks hfresh hfind hgood
    have hd : jwtDecode tok ⟨kd.material⟩ w.now (orEmpty w.env.audience)
        (orEmpty w.env.issuer) = .error (.expiredSignature "Signature has expired.") := by
      refine jwtDecode_expired halg hsig ?_ hexp ?_
      · intro n hn
        have := hnbf n hn
        simp [leeway]
        omega
      · simp [leeway]
        omega
    have hval := validateToken_decode_expired hissT haudT hkey hd
    have hfin := authenticate_of_validate_error hparts hsch (by rw [hparse]; exact hval)
    rw [hfin]
    rfl

/-- Witness for C3: the expired token `tok3` is rejected with the
expired-token reason. -/
theorem claim_C3_witness :
    tok3.claims.exp = some 10 ∧
    authenticate ⟨env1, fun _ => .netError, 1000,
        fun r => if r = "t3" then some tok3 else none, []⟩ "Bearer t3" st1 =
      (.error (.authFailed "Authentication failed: Token has expired"), st1, .noWrite) :=
  ⟨rfl, (claim_C3 tok3 10 rfl).2 ⟨env1, fun _ => .netError, 1000,
      fun r => if r = "t3" then some tok3 else none, []⟩
    "Bearer t3" st1 "Bearer" "t3" "https://idp.example/" "app1" "k1" [kd1] kd1
    (by decide) (by decide) (by decide) rfl rfl (by decide) rfl (by decide) rfl
    (by decide) rfl (by decide) rfl rfl rfl rfl
    (by intro n h; exact Option.noConfusion h)⟩

/-- **C1**: a well-formed bearer token whose signature verifies under a
key whose `kid` is in the (fresh) cached JWKS set, with matching issuer
and audience, a future `exp`, a non-future `nbf` and a non-empty `sub`,
makes `authenticate` return a pair `(identity, rawToken)` where the
identity's external id is the token's `sub` and the raw token is the
presented one; it does not fail. -/
theorem claim_C1 (w : World) (authHeader : String) (s : FetchState)
    (sch raw : String) (tok : Token) (ks : List JwkData)
    (kid su issuer audience : String) (kd : JwkData) (e : Int)
    (hparts : splitWs authHeader = [sch, raw]) (hsch : asciiLower sch = "bearer")
    (hparse : w.parse raw = some tok)
    (hiss : w.env.issuer = some issuer) (hissne : issuer ≠ "")
    (haud : w.env.audience = some audience) (haudne : audience ≠ "")
    (hks : s.cache.keys = some ks)
    (hfresh : w.now - s.cache.lastUpdated ≤ CACHE_TTL)
    (hkid : tok.kid = some kid) (hkidne : kid ≠ "")
    (hfind : findKey ks kid = some kd) (hgood : kd.good = true)
    (halg : tok.alg = "RS256") (hsig : tok.signedWith = kd.material)
    (hsub : tok.claims.sub = some su) (hsune : su ≠ "")
    (htiss : tok.claims.iss = some issuer) (htaud : tok.claims.aud = some audience)
    (hexp : tok.claims.exp = some e) (hefut : w.now ≤ e)
    (hnbf : ∀ n, tok.claims.nbf = some n → n ≤ w.now) :
    ∃ c, (authenticate w authHeader s).1 = .ok (some (c, raw)) ∧ c.externalId = su := by
  have hissT : truthy w.env.issuer = true := by rw [hiss]; simp [truthy, hissne]
  have haudT : truthy w.env.audience = true := by rw [haud]; simp [truthy, haudne]
  have hkey := getKeyForToken_cached w.env w.fetch w.now tok s ks kid kd
    hkid hkidne hks hfresh hfind hgood
  have hd : jwtDecode tok ⟨kd.material⟩ w.now (orEmpty w.env.audience)
      (orEmpty w.env.issuer) = .ok tok.claims := by
    refine jwtDecode_ok_of halg hsig ?_ ?_ ?_ ?_
    · intro n hn
      have := hnbf n hn
      simp [leeway]
      omega
    · intro e' he'
      rw [hexp] at he'
      cases Option.some.inj he'
      simp [leeway]
      omega
    · intro a ha
      rw [htaud] at ha
      rw [haud]
      exact (Option.some.inj ha).symm
    · rw [htiss, hiss]
      rfl
  have hval : validateToken w.env w.fetch w.now (w.parse raw) s = (.ok tok.claims, s) := by
    rw [hparse]
    exact validateToken_decode_ok hissT haudT hkey hd
  have hsubT : truthy tok.claims.sub = true := by rw [hsub]; simp [truthy, hsune]
  rcases hfc : findCustomer w.store (orEmpty tok.claims.sub) with _ | c0
  · refine ⟨⟨orEmpty tok.claims.sub, orEmpty tok.claims.givenName,
      orEmpty tok.claims.familyName, orEmpty tok.claims.email,
      orEmpty tok.claims.phoneNumber, none⟩, ?_, ?_⟩
    · rw [authenticate_of_validate_ok_created hparts hsch hval hsubT hfc]
    · rw [hsub]
      rfl
  · refine ⟨(reconcileExisting c0 tok.claims).1, ?_, ?_⟩
    · rw [authenticate_of_validate_ok_existing hparts hsch hval hsubT hfc]
    · rw [reconcileExisting_externalId, findCustomer_externalId hfc, hsub]
      rfl

/-- Witness for C1: the spec's concrete success scenario. -/
theorem claim_C1_witness :
    splitWs "Bearer t1" = ["Bearer", "t1"] ∧
    ∃ c, (authenticate ⟨env1, fun _ => .netError, 1000,
        fun r => if r = "t1" then some tok1 else none, []⟩ "Bearer t1" st1).1 =
      .ok (some (c, "t1")) ∧ c.externalId = "u1" :=
  ⟨by decide, claim_C1 ⟨env1, fun _ => .netError, 1000,
      fun r => if r = "t1" then some tok1 else none, []⟩ "Bearer t1" st1
    "Bearer" "t1" tok1 [kd1] "k1" "u1" "https://idp.example/" "app1" kd1 5000
    (by decide) (by decide) rfl rfl (by decide) rfl (by decide) rfl (by decide)
    rfl (by decide) rfl rfl rfl rfl rfl (by decide) rfl rfl rfl (by decide)
    (by intro n h; exact Option.noConfusion h)⟩

/-- **C4**: key resolution: a missing `kid` fails immediately with no
JWKS lookup and no state change; a `kid` absent from the fresh cached
set triggers exactly one forced TTL-bypassing refresh and one retried
lookup, failing with the key-not-found reason if still absent; and no
resolution ever performs more than one forced refresh. -/
theorem claim_C4 (env : Env) (fetch : Nat → FetchOutcome) (now : Int)
    (tok : Token) (s : FetchState) (ks ks2 : List JwkData) (kid : String)
    (hkid : tok.kid = some kid) (hkidne : kid ≠ "")
    (hks : s.cache.keys = some ks) (hfresh : now - s.cache.lastUpdated ≤ CACHE_TTL)
    (hmiss : findKey ks kid = none)
    (hurl : truthy env.jwksUrl = true) (hnow : now > CACHE_TTL)
    (hf : fetch s.nFetches = .ok ks2) (hne : ks2 ≠ [])
    (hmiss2 : findKey ks2 kid = none) :
    (∀ (tk : Token) (s' : FetchState), truthy tk.kid = false →
      getKeyForToken env fetch now (some tk) s' =
        (.error (.authFailed "Invalid token header: Token missing key ID (kid)"), s')) ∧
    (getKeyForToken env fetch now (some tok) s =
      (.error (.authFailed ("Key ID " ++ kid ++ " not found in JWKS")),
        ⟨⟨some ks2, now⟩, s.nFetches + 1, s.nForced + 1⟩)) ∧
    (∀ (tok? : Option Token) (s' : FetchState),
      ((getKeyForToken env fetch now tok? s').2).nForced ≤ s'.nForced + 1) := by
  refine ⟨?_, ?_, fun tok? s' => getKeyForToken_nForced_le env fetch now tok? s'⟩
  · intro tk s' h
    unfold getKeyForToken
    dsimp only
    rw [if_pos (by simp [h])]
  · unfold getKeyForToken
    dsimp only
    have htr : truthy tok.kid = true := by rw [hkid]; simp [truthy, hkidne]
    rw [if_neg (by simp [htr])]
    simp only [hkid, orEmpty, Option.getD_some]
    rw [getJwks_fresh env fetch now s ks hks hfresh]
    dsimp only
    rw [hmiss]
    dsimp only
    rw [getJwks_refresh_ok env fetch now
      ⟨⟨s.cache.keys, 0⟩, s.nFetches, s.nForced + 1⟩ ks2
      (Or.inr (by dsimp only; omega)) hurl hf hne]
    dsimp only
    rw [hmiss2]

/-- Witness for C4: the spec's unknown-`kid` scenario with one retried
fetch. -/
theorem claim_C4_witness :
    findKey [kd1] "k2" = none ∧
    getKeyForToken env1 (fun _ => .ok [kd1]) 1000 (some tok4) st1 =
      (.error (.authFailed ("Key ID " ++ "k2" ++ " not found in JWKS")),
        ⟨⟨some [kd1], 1000⟩, 1, 1⟩) :=
  ⟨rfl, (claim_C4 env1 (fun _ => .ok [kd1]) 1000 tok4 st1 [kd1] [kd1] "k2"
    rfl (by decide) rfl (by decide) rfl (by decide) (by decide) rfl
    (by decide) rfl).2.1⟩

/-- **C6**: with a configured JWKS URL, `get_jwks` performs a network
fetch exactly when no key set has ever been loaded or the TTL has
elapsed; hence a first successful call fetches once, a second call
within the TTL serves the cache without fetching, and a call after the
TTL fetches again. -/
theorem claim_C6 (env : Env) (fetch : Nat → FetchOutcome) (s : FetchState)
    (hurl : truthy env.jwksUrl = true) :
    (∀ now, ((getJwks env fetch now s).2).nFetches = s.nFetches + 1 ↔
      (s.cache.keys = none ∨ now - s.cache.lastUpdated > CACHE_TTL)) ∧
    (∀ (ks : List JwkData) (t1 t2 t3 : Int),
      s.cache.keys = none → fetch s.nFetches = .ok ks → ks ≠ [] →
      t2 - t1 ≤ CACHE_TTL → t3 - t1 > CACHE_TTL →
      getJwks env fetch t1 s = (.ok ks, ⟨⟨some ks, t1⟩, s.nFetches + 1, s.nForced⟩) ∧
      getJwks env fetch t2 ⟨⟨some ks, t1⟩, s.nFetches + 1, s.nForced⟩ =
        (.ok ks, ⟨⟨some ks, t1⟩, s.nFetches + 1, s.nForced⟩) ∧
      ((getJwks env fetch t3 ⟨⟨some ks, t1⟩, s.nFetches + 1, s.nForced⟩).2).nFetches =
        s.nFetches + 2) := by
  constructor
  · intro now
    constructor
    · intro h
      by_contra hcon
      push_neg at hcon
      obtain ⟨h1, h2⟩ := hcon
      cases hkc : s.cache.keys with
      | none => exact h1 hkc
      | some ks =>
        rw [getJwks_fresh env fetch now s ks hkc h2] at h
        dsimp only at h
        omega
    · exact getJwks_fetches_when_due env fetch now s hurl
  · intro ks t1 t2 t3 hnone hf hne hfresh2 hstale3
    refine ⟨getJwks_refresh_ok env fetch t1 s ks (Or.inl hnone) hurl hf hne, ?_, ?_⟩
    · exact getJwks_fresh env fetch t2 _ ks rfl hfresh2
    · have h := getJwks_fetches_when_due env fetch t3
        ⟨⟨some ks, t1⟩, s.nFetches + 1, s.nForced⟩ hurl (Or.inr hstale3)
      simpa using h

/-- Witness for C6: two calls within the TTL of a successful refresh
fetch once; a later call fetches a second time. -/
theorem claim_C6_witness :
    truthy env1.jwksUrl = true ∧
    (getJwks env1 (fun _ => .ok [kd1]) 1000 ⟨⟨none, 0⟩, 0, 0⟩ =
        (.ok [kd1], ⟨⟨some [kd1], 1000⟩, 1, 0⟩) ∧
      getJwks env1 (fun _ => .ok [kd1]) 1500 ⟨⟨some [kd1], 1000⟩, 1, 0⟩ =
        (.ok [kd1], ⟨⟨some [kd1], 1000⟩, 1, 0⟩) ∧
      ((getJwks env1 (fun _ => .ok [kd1]) 1700 ⟨⟨some [kd1], 1000⟩, 1, 0⟩).2).nFetches = 2) :=
  ⟨by decide, (claim_C6 env1 (fun _ => .ok [kd1]) ⟨⟨none, 0⟩, 0, 0⟩ (by decide)).2
    [kd1] 1000 1500 1700 rfl rfl (by decide) (by decide) (by decide)⟩

/-- **C7** (amended): when a due refresh hits a network/transport error
(`RequestException`) and a previous key set exists, `get_jwks` serves
that previous set with the cache (set and `last_updated`) unchanged;
with no previous set the failure propagates.  A well-formed JSON
response without a non-empty `keys` array, however, raises
`AuthenticationFailed('Invalid JWKS format')` even when a previous set
exists — it is not degraded. -/
theorem claim_C7_amended (env : Env) (fetch : Nat → FetchOutcome) (now : Int)
    (s : FetchState) (hurl : truthy env.jwksUrl = true)
    (hdue : s.cache.keys = none ∨ now - s.cache.lastUpdated > CACHE_TTL) :
    (∀ ks, s.cache.keys = some ks → fetch s.nFetches = .netError →
      getJwks env fetch now s = (.ok ks, { s with nFetches := s.nFetches + 1 })) ∧
    (s.cache.keys = none → fetch s.nFetches = .netError →
      getJwks env fetch now s =
        (.error .requestException, { s with nFetches := s.nFetches + 1 })) ∧
    (∀ body, fetch s.nFetches = .ok body → body = [] →
      getJwks env fetch now s =
        (.error (.authFailed "Invalid JWKS format"), { s with nFetches := s.nFetches + 1 })) := by
  refine ⟨?_, ?_, ?_⟩
  · intro ks hks hf
    rcases hdue with h | h
    · rw [hks] at h
      exact Option.noConfusion h
    · exact getJwks_refresh_netError_degrade env fetch now s ks hks h hurl hf
  · intro hks hf
    exact getJwks_refresh_netError_noCache env fetch now s hks hurl hf
  · intro body hf hbody
    have hc : (s.cache.keys.isNone ||
        decide (now - s.cache.lastUpdated > CACHE_TTL)) = true := by
      rcases hdue with h | h <;> simp [h]
    unfold getJwks
    rw [hc, resolveJwksUrl_explicit env hurl]
    dsimp only
    rw [hf, hbody]
    rfl

/-- **C7** counterexample: a due refresh answered by a JSON body with an
empty `keys` array does **not** degrade to the previous cached set — it
raises `AuthenticationFailed('Invalid JWKS format')` although a previous
set exists. -/
theorem claim_C7_counterexample :
    (getJwks env1 (fun _ => .ok []) 1000 ⟨⟨some [kd1], 0⟩, 0, 0⟩).1 =
      .error (.authFailed "Invalid JWKS format") ∧
    (getJwks env1 (fun _ => .ok []) 1000 ⟨⟨some [kd1], 0⟩, 0, 0⟩).1 ≠ .ok [kd1] := by
  refine ⟨rfl, ?_⟩
  intro h
  rw [show (getJwks env1 (fun _ => .ok []) 1000 ⟨⟨some [kd1], 0⟩, 0, 0⟩).1 =
      .error (.authFailed "Invalid JWKS format") from rfl] at h
  exact Except.noConfusion h

/-- Witness for the amended C7: a network error while holding a stale
set serves the stale set and leaves the cache untouched. -/
theorem claim_C7_witness :
    (⟨⟨some [kd1], 0⟩, 0, 0⟩ : FetchState).cache.keys = some [kd1] ∧
    getJwks env1 (fun _ => .netError) 1000 ⟨⟨some [kd1], 0⟩, 0, 0⟩ =
      (.ok [kd1], ⟨⟨some [kd1], 0⟩, 1, 0⟩) :=
  ⟨rfl, (claim_C7_amended env1 (fun _ => .netError) 1000 ⟨⟨some [kd1], 0⟩, 0, 0⟩
    (by decide) (Or.inr (by decide))).1 [kd1] rfl rfl⟩

/-- The update list computed by the code equals the spec's description
of the changed subset. -/
theorem reconcileExisting_fields_eq (c : Customer) (p : Payload) :
    (reconcileExisting c p).2 = changedFieldsSpec c p := by
  unfold reconcileExisting changedFieldsSpec fieldStep
  by_cases h1 : truthy p.givenName = true <;>
  by_cases h2 : c.firstName = orEmpty p.givenName <;>
  by_cases h3 : truthy p.familyName = true <;>
  by_cases h4 : c.lastName = orEmpty p.familyName <;>
  by_cases h5 : truthy p.email = true <;>
  by_cases h6 : c.email = orEmpty p.email <;>
  by_cases h7 : truthy p.phoneNumber = true <;>
  by_cases h8 : c.phone = orEmpty p.phoneNumber <;>
  simp [h1, h2, h3, h4, h5, h6, h7, h8]

/-- Reconciliation never reads the address field: running it on a record
with any other address produces the same updates and the same update
list. -/
theorem reconcileExisting_address_independent (c : Customer) (p : Payload)
    (a : Option String) :
    reconcileExisting { c with address := a } p =
      ({ (reconcileExisting c p).1 with address := a }, (reconcileExisting c p).2) := by
  unfold reconcileExisting
  dsimp only
  repeat' split
  all_goals simp_all

/-- **C9**: the reconciliation frame: for an existing customer the
persisted field set is exactly the subset of {first name, last name,
email, phone} whose truthy claim value differs from the stored value;
when that subset is empty no write is performed (repeated `authenticate`
with unchanged claims writes nothing); and the address field is neither
read nor written by reconciliation. -/
theorem claim_C9 :
    (∀ (c : Customer) (p : Payload), (reconcileExisting c p).2 = changedFieldsSpec c p) ∧
    (∀ (c : Customer) (p : Payload), ((reconcileExisting c p).1).address = c.address) ∧
    (∀ (c : Customer) (p : Payload) (a : Option String),
      reconcileExisting { c with address := a } p =
        ({ (reconcileExisting c p).1 with address := a }, (reconcileExisting c p).2)) ∧
    (∀ (w : World) (authHeader : String) (s s1 : FetchState) (sch raw : String)
      (payload : Payload) (c0 : Customer),
      splitWs authHeader = [sch, raw] → asciiLower sch = "bearer" →
      validateToken w.env w.fetch w.now (w.parse raw) s = (.ok payload, s1) →
      truthy payload.sub = true →
      findCustomer w.store (orEmpty payload.sub) = some c0 →
      changedFieldsSpec c0 payload = [] →
      (authenticate w authHeader s).2.2 = .noWrite) := by
  refine ⟨reconcileExisting_fields_eq, reconcileExisting_address,
    reconcileExisting_address_independent, ?_⟩
  intro w authHeader s s1 sch raw payload c0 hparts hsch hval hsub hfc hspec
  rw [authenticate_of_validate_ok_existing hparts hsch hval hsub hfc]
  have hf : (reconcileExisting c0 payload).2 = [] := by
    rw [reconcileExisting_fields_eq, hspec]
  simp [hf]

/-- Witness for C9: a second `authenticate` with unchanged claims
against the already-reconciled customer performs no store write. -/
theorem claim_C9_witness :
    changedFieldsSpec cust1 pay1 = [] ∧
    (authenticate ⟨env1, fun _ => .netError, 1000,
        fun r => if r = "t1" then some tok1 else none, [cust1]⟩ "Bearer t1" st1).2.2 =
      .noWrite :=
  ⟨rfl, (claim_C9).2.2.2 ⟨env1, fun _ => .netError, 1000,
      fun r => if r = "t1" then some tok1 else none, [cust1]⟩
    "Bearer t1" st1 st1 "Bearer" "t1" pay1 cust1
    (by decide) (by decide) rfl rfl rfl rfl⟩

end SilAuth
